import Mathlib

/-!
# KVMFR shared-memory client (OBS plugins `linux-looking-glass` and `linux-kvmfr`)

A shallow embedding of the two plugin sources

* `plugins/linux-looking-glass/looking-glass-source.c`  (namespace `LookingGlass`)
* `plugins/linux-kvmfr/kvmfr-source.c`                  (namespace `LinuxKvmfr`)

The consumer is single threaded, so every C function becomes a function on an
explicit `World`: the fields of `struct lg_data`, the contents of the shared
region, and the renderer (texture handles and the chronological list of the
calls made into it).  Unsigned fields are natural numbers.  A step that C leaves
undefined (dereferencing the unmapped header, writing past the decode buffer,
reading the cursor bitmap past the mapping, `int` arithmetic leaving its range)
is an explicit `Fault`.
-/

/-! ## Protocol constants and wire structures (`KVMFR.h`) -/

/-- Modelled from the spec: the constants of `KVMFR.h`, the protocol header both
plugins include, which is not among the sources.  Only the names used by the
two plugins appear.  The values are left open: every general theorem below
holds for every choice of them.  `KVMFR_HEADER_MAGIC` lists the
`sizeof(KVMFR_HEADER_MAGIC)` bytes that `memcmp` compares.  The two cursor
types are labels of one `switch`, hence distinct. -/
structure KVMFR where
  KVMFR_HEADER_MAGIC : List Nat
  KVMFR_HEADER_VERSION : Nat
  KVMFR_HEADER_FLAG_RESTART : Nat
  KVMFR_FRAME_FLAG_UPDATE : Nat
  KVMFR_CURSOR_FLAG_UPDATE : Nat
  KVMFR_CURSOR_FLAG_VISIBLE : Nat
  KVMFR_CURSOR_FLAG_SHAPE : Nat
  KVMFR_CURSOR_FLAG_POS : Nat
  FRAME_TYPE_BGRA : Nat
  FRAME_TYPE_RGBA : Nat
  FRAME_TYPE_RGBA10 : Nat
  FRAME_TYPE_MAX : Nat
  CURSOR_TYPE_MONOCHROME : Nat
  CURSOR_TYPE_MASKED_COLOR : Nat
  cursor_types_distinct : CURSOR_TYPE_MONOCHROME ≠ CURSOR_TYPE_MASKED_COLOR

/-- Modelled from the spec: the values the Looking Glass `KVMFR.h` of the
plugins' time gives the constants (magic `"[[KVMFR]]"` with its terminating
zero byte; frame types `INVALID, BGRA, RGBA, RGBA10, YUV420, MAX` numbered from
zero; cursor types `COLOR, MONOCHROME, MASKED_COLOR` numbered from zero; flag
bits `1, 2, 4, 8`).  Used only to evaluate the code at concrete inputs. -/
def KVMFR_h : KVMFR where
  KVMFR_HEADER_MAGIC := [91, 91, 75, 86, 77, 70, 82, 93, 93, 0]
  KVMFR_HEADER_VERSION := 8
  KVMFR_HEADER_FLAG_RESTART := 1
  KVMFR_FRAME_FLAG_UPDATE := 1
  KVMFR_CURSOR_FLAG_UPDATE := 1
  KVMFR_CURSOR_FLAG_VISIBLE := 2
  KVMFR_CURSOR_FLAG_SHAPE := 4
  KVMFR_CURSOR_FLAG_POS := 8
  FRAME_TYPE_BGRA := 1
  FRAME_TYPE_RGBA := 2
  FRAME_TYPE_RGBA10 := 3
  FRAME_TYPE_MAX := 5
  CURSOR_TYPE_MONOCHROME := 1
  CURSOR_TYPE_MASKED_COLOR := 2
  cursor_types_distinct := by decide

/-- Modelled from the spec: `struct KVMFRFrame` of `KVMFR.h` (spec, Frame
Descriptor): the fields the plugins read. -/
structure KVMFRFrame where
  flags : Nat
  type : Nat
  width : Nat
  height : Nat
  pitch : Nat
  dataPos : Nat
deriving DecidableEq

/-- Modelled from the spec: `struct KVMFRCursor` of `KVMFR.h` (spec, Cursor
Descriptor): the fields the plugins read. -/
structure KVMFRCursor where
  flags : Nat
  x : Int
  y : Int
  version : Nat
  type : Nat
  width : Nat
  height : Nat
  dataPos : Nat
deriving DecidableEq

/-- Modelled from the spec: `struct KVMFRHeader` of `KVMFR.h` (spec, Header),
at offset 0 of the shared region.  `magic i` is byte `i` of the magic array. -/
structure KVMFRHeader where
  magic : Nat → Nat
  version : Nat
  flags : Nat
  frame : KVMFRFrame
  cursor : KVMFRCursor

/-- The shared region: the header and the payload bytes, `mem a` being the byte
at offset `a` from the start of the mapping.  The mapping is `data->shmSize`
bytes long; the sources never compare a cursor offset with that size, so a
read the plugin itself makes at or past it is the fault `region_overrun`
(`read_fault`). -/
structure Shm where
  hdr : KVMFRHeader
  mem : Nat → Nat

/-! ## The renderer (libobs graphics) -/

/-- The pixel formats of `enum gs_color_format` the plugins name. -/
inductive gs_color_format where
  | GS_BGRA
  | GS_RGBA
  | GS_R10G10B10A2
deriving DecidableEq

/-- Where a pointer handed to `gs_texture_set_image` points: `shm off` is
`(const uint8_t *)data->header + off`, `cursor_image p` is
`(uint32_t *)data->cursor_image + p`. -/
inductive ImagePtr where
  | shm (off : Nat)
  | cursor_image (pixel : Nat)
deriving DecidableEq

/-- One call into the renderer.  Texture arguments are handles, `none` is
`NULL`; `gs_texture_create` records the handle it returned. -/
inductive GsCall where
  | gs_texture_destroy (tex : Option Nat)
  | gs_texture_create (width height : Nat) (format : gs_color_format) (tex : Nat)
  | gs_texture_set_image (tex : Option Nat) (data : ImagePtr) (linesize : Nat)
deriving DecidableEq

/-- The renderer: the next fresh handle, the handles of the surfaces that
exist, and every call made so far, oldest first. -/
structure Graphics where
  next : Nat
  live : List Nat
  calls : List GsCall
deriving DecidableEq

/-- Modelled from the spec: `gs_texture_destroy` of libobs (spec, external
interface: destroy a 2D surface).  The surface stops existing. -/
def gs_texture_destroy (g : Graphics) (tex : Option Nat) : Graphics :=
  { g with
    live := match tex with
      | some t => g.live.erase t
      | none => g.live
    calls := g.calls ++ [GsCall.gs_texture_destroy tex] }

/-- Modelled from the spec: `gs_texture_create` of libobs (spec, external
interface: create a 2D surface of given width, height, pixel format).  It
returns a fresh handle; creation is taken to succeed. -/
def gs_texture_create (g : Graphics) (width height : Nat) (format : gs_color_format) :
    Graphics × Nat :=
  ({ next := g.next + 1
     live := g.next :: g.live
     calls := g.calls ++ [GsCall.gs_texture_create width height format g.next] },
   g.next)

/-- Modelled from the spec: `gs_texture_set_image` of libobs (spec, external
interface: upload raw bytes into a surface given pointer and row stride). -/
def gs_texture_set_image (g : Graphics) (tex : Option Nat) (data : ImagePtr)
    (linesize : Nat) : Graphics :=
  { g with calls := g.calls ++ [GsCall.gs_texture_set_image tex data linesize] }

/-! ## Consumer state -/

/-- The fields of `struct lg_data` (the `linux-kvmfr` declaration; the
`linux-looking-glass` one is its first part).  `header` is `true` when
`data->header` points to the mapping and `false` when it is `NULL`; pointers to
renderer surfaces are handles, `none` being `NULL`; `cursor_image` is the
decode buffer as an array of 32-bit pixels.  `source`, `shmFD` and `shmFile`
never reach the protocol logic and are left out. -/
structure lg_data where
  header : Bool
  shmSize : Nat
  width : Nat
  height : Nat
  texture : Option Nat
  cursor_texture : Option Nat
  cursor_image : Option (List Nat)
  cursor_visible : Bool
  cursor_mono : Option Nat
  cursor_x : Int
  cursor_y : Int
  cursor_w : Nat
  cursor_h : Nat
  cursor_version : Nat
  show_cursor : Bool
deriving DecidableEq

/-- Everything a plugin function can read or change. -/
structure World where
  data : lg_data
  shm : Shm
  gs : Graphics

/-- What C leaves undefined. -/
inductive Fault where
  | null_deref
  | buffer_overflow
  | int_range
  | region_overrun
deriving DecidableEq

/-- The value `(uint8_t)~x`, the operand of the atomic AND on a `uint8_t` flag
byte. -/
def not8 (x : Nat) : Nat := 255 - x % 256

/-- The statement `__sync_and_and_fetch(&data->header->frame.flags, ~bit)`. -/
def clear_frame_flag (s : Shm) (bit : Nat) : Shm :=
  { s with hdr := { s.hdr with frame := { s.hdr.frame with
      flags := s.hdr.frame.flags &&& not8 bit } } }

/-- The color format `lg_resize_texture` selects in its `switch`, `none` for
the `default` label. -/
def colorFormat (K : KVMFR) (type : Nat) : Option gs_color_format :=
  if type = K.FRAME_TYPE_RGBA then some gs_color_format.GS_RGBA
  else if type = K.FRAME_TYPE_BGRA then some gs_color_format.GS_BGRA
  else if type = K.FRAME_TYPE_RGBA10 then some gs_color_format.GS_R10G10B10A2
  else none

/-- The function `lg_resize_texture`, identical in both plugins: destroy the
current texture if there is one, then, unless the frame type falls to
`default`, store the new size and create the new texture. -/
def lg_resize_texture (K : KVMFR) (w : World) (header : KVMFRFrame) : World :=
  let g1 := match w.data.texture with
    | some t => gs_texture_destroy w.gs (some t)
    | none => w.gs
  match colorFormat K header.type with
  | none => { w with gs := g1 }
  | some fmt =>
    let r := gs_texture_create g1 header.width header.height fmt
    { w with
      data := { w.data with width := header.width, height := header.height,
                            texture := some r.2 }
      gs := r.1 }

/-- The three system calls of `map_memory`: the size `stat` reports (`none` if
it fails), whether `open` succeeds, whether `mmap` succeeds. -/
structure MapEnv where
  st_size : Option Nat
  open_ok : Bool
  mmap_ok : Bool

/-- The function `map_memory`, identical in both plugins: the updated
`shmSize` and whether a mapping was returned. -/
def map_memory (env : MapEnv) (data : lg_data) : lg_data × Bool :=
  if data.shmSize = 0 then
    match env.st_size with
    | none => (data, false)
    | some sz =>
      let data1 := { data with shmSize := sz }
      if env.open_ok then
        if env.mmap_ok then (data1, true) else (data1, false)
      else (data1, false)
  else if env.open_ok then
    if env.mmap_ok then (data, true) else (data, false)
  else (data, false)

/-- The test `memcmp(magic, KVMFR_HEADER_MAGIC, sizeof(KVMFR_HEADER_MAGIC)) != 0`. -/
def memcmp_ne (magic : Nat → Nat) (expected : List Nat) : Bool :=
  (List.range expected.length).any (fun i => magic i != expected.getD i 0)

namespace LookingGlass

/-- The function `lg_capture_stop` of `looking-glass-source.c`. -/
def lg_capture_stop (w : World) : World :=
  let w1 : World := match w.data.texture with
    | some t => { w with gs := gs_texture_destroy w.gs (some t)
                         data := { w.data with texture := none } }
    | none => w
  if w1.data.header then { w1 with data := { w1.data with header := false } } else w1

/-- The function `lg_capture_start` of `looking-glass-source.c`. -/
def lg_capture_start (K : KVMFR) (env : MapEnv) (w : World) : World :=
  let m := map_memory env w.data
  let w1 : World := { w with data := { m.1 with header := m.2 } }
  if !m.2 then lg_capture_stop w1
  else if memcmp_ne w1.shm.hdr.magic K.KVMFR_HEADER_MAGIC then lg_capture_stop w1
  else if w1.shm.hdr.version ≠ K.KVMFR_HEADER_VERSION then lg_capture_stop w1
  else lg_resize_texture K w1 w1.shm.hdr.frame

/-- The sanity test of `lg_video_tick`, as a proposition on the copied frame
header and the region size. -/
def rejected (K : KVMFR) (shmSize : Nat) (header : KVMFRFrame) : Prop :=
  K.FRAME_TYPE_MAX ≤ header.type ∨ header.width = 0 ∨ header.height = 0 ∨
    shmSize < header.dataPos ∨ header.pitch < header.width

/-- The function `lg_video_tick` of `looking-glass-source.c`; `showing` is the
answer of `obs_source_showing(data->source)`. -/
def lg_video_tick (K : KVMFR) (showing : Bool) (w : World) : Except Fault World :=
  if !showing then Except.ok w
  else if w.data.texture.isNone then Except.ok w
  else if !w.data.header then Except.error Fault.null_deref
  else if w.shm.hdr.frame.flags &&& K.KVMFR_FRAME_FLAG_UPDATE = 0 then Except.ok w
  else
    let header := w.shm.hdr.frame
    let w1 : World := { w with shm := clear_frame_flag w.shm K.KVMFR_FRAME_FLAG_UPDATE }
    if K.FRAME_TYPE_MAX ≤ header.type ∨ header.width = 0 ∨ header.height = 0 ∨
        w1.data.shmSize < header.dataPos ∨ header.pitch < header.width then
      Except.ok w1
    else
      let w2 := if header.width ≠ w1.data.width ∨ header.height ≠ w1.data.height
        then lg_resize_texture K w1 header else w1
      Except.ok { w2 with gs := gs_texture_set_image w2.gs w2.data.texture
                                  (ImagePtr.shm header.dataPos) header.pitch }

/-- The ticks that follow, in order: before each one the producer may have
rewritten the region (`step.2` is what the mapping holds at that tick), and
`step.1` is the answer of `obs_source_showing` at that tick. -/
def later_ticks (K : KVMFR) : List (Bool × Shm) → World → Except Fault World
  | [], w => Except.ok w
  | step :: rest, w =>
    match lg_video_tick K step.1 { w with shm := step.2 } with
    | Except.error e => Except.error e
    | Except.ok w1 => later_ticks K rest w1

end LookingGlass

namespace LinuxKvmfr

/-- The byte `dest[j]` of the mapping at offset `off`; `lg_fetch_cursor` reads
it only after `read_fault` has found the offset inside the mapping. -/
def read8 (s : Shm) (off : Nat) : Nat := s.mem off % 256

/-- The 32-bit word `src[i]` read through a `const uint32_t *` at byte offset
`off` of the mapping (native byte order of the hosts the plugin runs on: least
significant byte first). -/
def read32 (s : Shm) (off : Nat) : Nat :=
  read8 s off + 256 * read8 s (off + 1) + 65536 * read8 s (off + 2)
    + 16777216 * read8 s (off + 3)

/-- The statement `__sync_and_and_fetch(&data->header->cursor.flags, ~bit)`. -/
def clear_cursor_flag (s : Shm) (bit : Nat) : Shm :=
  { s with hdr := { s.hdr with cursor := { s.hdr.cursor with
      flags := s.hdr.cursor.flags &&& not8 bit } } }

/-- The statement `data->header->cursor.flags = 0`. -/
def reset_cursor_flags (s : Shm) : Shm :=
  { s with hdr := { s.hdr with cursor := { s.hdr.cursor with flags := 0 } } }

/-- The first loop of the monochrome case of `lg_fetch_cursor`:
`for (i = 0; i < width*height; ++i)`, with `n = width*height` and `dest j` the
byte `dest[j]`. -/
def mono_and_loop (dest : Nat → Nat) (n : Nat) (texture : List Nat) : List Nat :=
  (List.range' 0 n).foldl (fun tex i =>
    let mask := 0x80 >>> (i &&& 7)
    if dest (i / 8) &&& mask = 0 then tex.set i 0xFF000000
    else tex.set i 0x00000000) texture

/-- The second loop of the monochrome case of `lg_fetch_cursor`:
`for (i = width*height; i < 2*width*height; ++i)`. -/
def mono_xor_loop (dest : Nat → Nat) (n : Nat) (texture : List Nat) : List Nat :=
  (List.range' n n).foldl (fun tex i =>
    let mask := 0x80 >>> (i &&& 7)
    if dest (i / 8) &&& mask ≠ 0 then tex.set i 0xFFFFFFFF
    else tex.set i 0x00000000) texture

/-- The loop of the masked-color case of `lg_fetch_cursor`, `src i` being the
word `src[i]`; `~0xFF000000` is `0x00FFFFFF` in `unsigned int`. -/
def masked_color_loop (src : Nat → Nat) (n : Nat) (texture : List Nat) : List Nat :=
  (List.range' 0 n).foldl (fun tex i =>
    tex.set i ((src i &&& 0x00FFFFFF) |||
      (if src i &&& 0xFF000000 ≠ 0 then 0x0 else 0xFF000000))) texture

/-- The first part of `lg_fetch_cursor`: the decode buffer after the
reallocation test.  `bmalloc(width * height * 4)` is a buffer of
`width * height` pixels (its indeterminate content is taken as zero). -/
def cursor_image_realloc (K : KVMFR) (data : lg_data) (header : KVMFRCursor) :
    Option (List Nat) :=
  if header.type = K.CURSOR_TYPE_MONOCHROME then
    if data.cursor_w ≠ header.width ∨ data.cursor_h ≠ header.height / 2 then
      some (List.replicate (header.width * header.height) 0)
    else data.cursor_image
  else
    if data.cursor_w ≠ header.width ∨ data.cursor_h ≠ header.height then
      some (List.replicate (header.width * header.height) 0)
    else data.cursor_image

/-- Writing `texture[0 .. count-1]`: nothing is written when `count = 0`,
otherwise the buffer must exist and hold `count` pixels. -/
def write_fault (texture : Option (List Nat)) (count : Nat) : Option Fault :=
  if count = 0 then none
  else match texture with
    | none => some Fault.null_deref
    | some buf => if buf.length < count then some Fault.buffer_overflow else none

/-- Reading the `count` bytes of the mapping that start at offset `first`:
nothing is read when `count = 0`, otherwise they must all lie inside the
`shmSize` bytes that are mapped. -/
def read_fault (shmSize first count : Nat) : Option Fault :=
  if count = 0 then none
  else if shmSize < first + count then some Fault.region_overrun else none

/-- A decode loop of `lg_fetch_cursor` that writes `texture[0 .. count-1]` and
reads the `bytes` bytes of the mapping from offset `first`: it is undefined as
soon as one of its iterations is (the write fault is the one named when both
kinds occur). -/
def loop_fault (texture : Option (List Nat)) (count shmSize first bytes : Nat) :
    Option Fault :=
  match write_fault texture count with
  | some e => some e
  | none => read_fault shmSize first bytes

/-- The last part of `lg_fetch_cursor`, after the `switch`: recreate
`cursor_texture` when the cached size differs, then upload `dest`. -/
def cursor_texture_update (w : World) (width height : Nat) (dest : ImagePtr) : World :=
  let w1 : World :=
    if w.data.cursor_w ≠ width ∨ w.data.cursor_h ≠ height then
      let g1 := match w.data.cursor_texture with
        | some t => gs_texture_destroy w.gs (some t)
        | none => w.gs
      let r := gs_texture_create g1 width height gs_color_format.GS_BGRA
      { w with
        data := { w.data with cursor_w := width, cursor_h := height,
                              cursor_texture := some r.2 }
        gs := r.1 }
    else w
  { w1 with gs := gs_texture_set_image w1.gs w1.data.cursor_texture dest (width * 4) }

/-- The function `lg_fetch_cursor` of `kvmfr-source.c`.  `int width`,
`int height` and their products are natural numbers; a header for which they
would leave the range of `int` is the fault `int_range`.  The two monochrome
loops read the bytes `dest[i/8]` for `i < 2*width*height`, that is
`(2*width*height + 7) / 8` bytes from `dataPos`; the masked-color loop reads
the words `src[i]` for `i < width*height`, that is `4*width*height` bytes. -/
def lg_fetch_cursor (K : KVMFR) (w : World) (header : KVMFRCursor) : Except Fault World :=
  if !w.data.header then Except.error Fault.null_deref
  else if ¬ (header.width * 4 < 2 ^ 31 ∧ header.height < 2 ^ 31 ∧
      header.width * header.height * 4 < 2 ^ 31) then Except.error Fault.int_range
  else
    let width := header.width
    let texture := cursor_image_realloc K w.data header
    if header.type = K.CURSOR_TYPE_MONOCHROME then
      let height := header.height / 2
      match loop_fault texture (2 * width * height) w.data.shmSize header.dataPos
          ((2 * width * height + 7) / 8) with
      | some e => Except.error e
      | none =>
        let dest := fun j => read8 w.shm (header.dataPos + j)
        let image := texture.map (fun buf =>
          mono_xor_loop dest (width * height) (mono_and_loop dest (width * height) buf))
        let r : Graphics × Option Nat := match w.data.cursor_mono with
          | none =>
            let c := gs_texture_create w.gs width height gs_color_format.GS_BGRA
            (c.1, some c.2)
          | some t => (w.gs, some t)
        let g2 := gs_texture_set_image r.1 r.2 (ImagePtr.cursor_image (width * height))
          (width * 4)
        let w1 : World := { w with
          data := { w.data with cursor_image := image, cursor_mono := r.2 }
          gs := g2 }
        Except.ok (cursor_texture_update w1 width height (ImagePtr.cursor_image 0))
    else if header.type = K.CURSOR_TYPE_MASKED_COLOR then
      let height := header.height
      match loop_fault texture (width * height) w.data.shmSize header.dataPos
          (4 * (width * height)) with
      | some e => Except.error e
      | none =>
        let src := fun i => read32 w.shm (header.dataPos + 4 * i)
        let image := texture.map (fun buf => masked_color_loop src (width * height) buf)
        let w1 : World := { w with
          data := { w.data with cursor_image := image, cursor_mono := none }
          gs := gs_texture_destroy w.gs w.data.cursor_mono }
        Except.ok (cursor_texture_update w1 width height (ImagePtr.cursor_image 0))
    else
      let w1 : World := { w with
        data := { w.data with cursor_image := texture, cursor_mono := none }
        gs := gs_texture_destroy w.gs w.data.cursor_mono }
      Except.ok (cursor_texture_update w1 width header.height (ImagePtr.shm header.dataPos))

/-- The function `lg_video_tick_frame` of `kvmfr-source.c`. -/
def lg_video_tick_frame (K : KVMFR) (w : World) : Except Fault World :=
  if !w.data.header then Except.error Fault.null_deref
  else
    let header := w.shm.hdr.frame
    let w1 : World := { w with shm := clear_frame_flag w.shm K.KVMFR_FRAME_FLAG_UPDATE }
    let w2 := if header.width ≠ w1.data.width ∨ header.height ≠ w1.data.height
      then lg_resize_texture K w1 header else w1
    Except.ok { w2 with gs := gs_texture_set_image w2.gs w2.data.texture
                                (ImagePtr.shm header.dataPos) header.pitch }

/-- The function `lg_video_tick_cursor` of `kvmfr-source.c`.  Both flag tests
use the logical `&&` of the source: they hold when `cursor.flags` is nonzero
(and the constant is nonzero). -/
def lg_video_tick_cursor (K : KVMFR) (w : World) : Except Fault World :=
  if !w.data.header then Except.error Fault.null_deref
  else
    let w1 : World :=
      if w.shm.hdr.cursor.flags ≠ 0 ∧ K.KVMFR_CURSOR_FLAG_POS ≠ 0 then
        { w with
          data := { w.data with cursor_x := w.shm.hdr.cursor.x,
                                cursor_y := w.shm.hdr.cursor.y }
          shm := clear_cursor_flag w.shm K.KVMFR_CURSOR_FLAG_POS }
      else w
    if ¬ (w1.shm.hdr.cursor.flags ≠ 0 ∧ K.KVMFR_CURSOR_FLAG_UPDATE ≠ 0) then Except.ok w1
    else
      let header := w1.shm.hdr.cursor
      let r : Except Fault World :=
        if header.flags &&& K.KVMFR_CURSOR_FLAG_SHAPE ≠ 0 ∧
            w1.data.cursor_version ≠ header.version then lg_fetch_cursor K w1 header
        else Except.ok w1
      match r with
      | Except.error e => Except.error e
      | Except.ok w2 =>
        Except.ok { w2 with
          shm := reset_cursor_flags w2.shm
          data := { w2.data with
            cursor_visible := decide (header.flags &&& K.KVMFR_CURSOR_FLAG_VISIBLE ≠ 0) } }

/-- The function `lg_video_tick` of `kvmfr-source.c`; `showing` is the answer
of `obs_source_showing(data->source)`. -/
def lg_video_tick (K : KVMFR) (showing : Bool) (w : World) : Except Fault World :=
  if !showing then Except.ok w
  else if w.data.texture.isNone then Except.ok w
  else if !w.data.header then Except.error Fault.null_deref
  else
    let r : Except Fault World :=
      if w.shm.hdr.frame.flags &&& K.KVMFR_FRAME_FLAG_UPDATE ≠ 0 then lg_video_tick_frame K w
      else Except.ok w
    match r with
    | Except.error e => Except.error e
    | Except.ok w1 => if w1.data.show_cursor then lg_video_tick_cursor K w1 else Except.ok w1

/-- The function `lg_capture_stop` of `kvmfr-source.c`. -/
def lg_capture_stop (w : World) : World :=
  let w1 : World := match w.data.texture with
    | some t => { w with gs := gs_texture_destroy w.gs (some t)
                         data := { w.data with texture := none } }
    | none => w
  let w2 : World := match w1.data.cursor_texture with
    | some t => { w1 with gs := gs_texture_destroy w1.gs (some t)
                          data := { w1.data with cursor_texture := none } }
    | none => w1
  let w3 : World := match w2.data.cursor_mono with
    | some t => { w2 with gs := gs_texture_destroy w2.gs (some t)
                          data := { w2.data with cursor_mono := none } }
    | none => w2
  let w4 : World := { w3 with data := { w3.data with cursor_visible := false,
                                                     cursor_image := none } }
  if w4.data.header then { w4 with data := { w4.data with header := false } } else w4

/-- The function `lg_capture_start` of `kvmfr-source.c`.  The atomic OR on the
`uint8_t` header flags happens before the magic and version tests; in the
`show_cursor` branch the source assigns `cursor_w` twice and never
`cursor_h`. -/
def lg_capture_start (K : KVMFR) (env : MapEnv) (w : World) : Except Fault World :=
  let m := map_memory env w.data
  let w1 : World := { w with data := { m.1 with header := m.2 } }
  if !m.2 then Except.ok (lg_capture_stop w1)
  else
    let w2 : World := { w1 with shm := { w1.shm with hdr := { w1.shm.hdr with
      flags := w1.shm.hdr.flags ||| (K.KVMFR_HEADER_FLAG_RESTART % 256) } } }
    if memcmp_ne w2.shm.hdr.magic K.KVMFR_HEADER_MAGIC then Except.ok (lg_capture_stop w2)
    else if w2.shm.hdr.version ≠ K.KVMFR_HEADER_VERSION then Except.ok (lg_capture_stop w2)
    else
      let w3 : World := { w2 with data := { w2.data with height := 0 } }
      let w4 : World :=
        if w3.data.show_cursor then
          let r := gs_texture_create w3.gs 1 1 gs_color_format.GS_BGRA
          { w3 with data := { w3.data with cursor_w := 1, cursor_texture := some r.2 }
                    gs := r.1 }
        else w3
      lg_video_tick_frame K w4

end LinuxKvmfr

/-! ## Auxiliary definitions and concrete inputs -/

/-- A consumer that is capturing: header mapped, a 4096-byte region, a live
1x1 texture with handle 0, cursor overlay switched off. -/
def capturing_data : lg_data where
  header := true
  shmSize := 4096
  width := 1
  height := 1
  texture := some 0
  cursor_texture := none
  cursor_image := none
  cursor_visible := false
  cursor_mono := none
  cursor_x := 0
  cursor_y := 0
  cursor_w := 0
  cursor_h := 0
  cursor_version := 0
  show_cursor := false

/-- A cursor descriptor with nothing pending. -/
def idle_cursor : KVMFRCursor where
  flags := 0
  x := 0
  y := 0
  version := 0
  type := 0
  width := 0
  height := 0
  dataPos := 0

/-- A region with a valid header carrying the given frame and cursor
descriptors; every payload byte is `fill`. -/
def region_with (frame : KVMFRFrame) (cursor : KVMFRCursor) (fill : Nat) : Shm where
  hdr :=
    { magic := fun i => KVMFR_h.KVMFR_HEADER_MAGIC.getD i 0
      version := KVMFR_h.KVMFR_HEADER_VERSION
      flags := 0
      frame := frame
      cursor := cursor }
  mem := fun _ => fill

/-- The renderer holding exactly the texture with handle 0 and no call made. -/
def one_texture : Graphics where
  next := 1
  live := [0]
  calls := []

/-- A pending 1x1 BGRA frame whose pixel data starts at offset 4096, the very
end of a 4096-byte region. -/
def frame_at_region_end : KVMFRFrame where
  flags := 1
  type := 1
  width := 1
  height := 1
  pitch := 4
  dataPos := 4096

/-- The capturing consumer facing `frame_at_region_end`. -/
def world_frame_at_region_end : World where
  data := capturing_data
  shm := region_with frame_at_region_end idle_cursor 0
  gs := one_texture

/-- Modelled from the spec: bytes per pixel implied by a pixel-format tag
(`bpp`): 4 for BGRA, RGBA and RGBA10; the spec names no other format, for
which this is 0. -/
def spec_bpp (K : KVMFR) (type : Nat) : Nat :=
  if type = K.FRAME_TYPE_BGRA ∨ type = K.FRAME_TYPE_RGBA ∨ type = K.FRAME_TYPE_RGBA10
  then 4 else 0

/-- The capturing consumer facing the given pending frame descriptor. -/
def capturing_world (frame : KVMFRFrame) : World where
  data := capturing_data
  shm := region_with frame idle_cursor 0
  gs := one_texture

/-- A pending 1x1 BGRA frame whose pitch is 3 bytes: not smaller than the
width 1, but smaller than `width * 4`. -/
def frame_pitch_three : KVMFRFrame where
  flags := 1
  type := 1
  width := 1
  height := 1
  pitch := 3
  dataPos := 64

/-- A pending 4x1 BGRA frame whose pitch 3 is smaller than its width 4. -/
def frame_pitch_below_width : KVMFRFrame where
  flags := 1
  type := 1
  width := 4
  height := 1
  pitch := 3
  dataPos := 64

/-- A pending frame whose type is `FRAME_TYPE_MAX`. -/
def frame_type_max : KVMFRFrame where
  flags := 1
  type := 5
  width := 2
  height := 2
  pitch := 8
  dataPos := 64

/-- A consumer that has not started capturing: everything zero, as left by
`bzalloc`. -/
def fresh_data : lg_data where
  header := false
  shmSize := 0
  width := 0
  height := 0
  texture := none
  cursor_texture := none
  cursor_image := none
  cursor_visible := false
  cursor_mono := none
  cursor_x := 0
  cursor_y := 0
  cursor_w := 0
  cursor_h := 0
  cursor_version := 0
  show_cursor := false

/-- System calls that all succeed on a 4096-byte file. -/
def env_ok : MapEnv where
  st_size := some 4096
  open_ok := true
  mmap_ok := true

/-- A region whose magic bytes are all zero (the producer is not running),
with a pending frame posted. -/
def region_bad_magic : Shm where
  hdr :=
    { magic := fun _ => 0
      version := KVMFR_h.KVMFR_HEADER_VERSION
      flags := 0
      frame := frame_pitch_three
      cursor := idle_cursor }
  mem := fun _ => 0

/-- The fresh consumer facing `region_bad_magic`. -/
def world_bad_magic : World where
  data := fresh_data
  shm := region_bad_magic
  gs := { next := 0, live := [], calls := [] }

/-- The capturing consumer of the cursor-capable plugin with the cursor overlay
switched on and no cursor decoded yet, facing the given cursor descriptor; the
frame descriptor is idle and every payload byte is `fill`. -/
def cursor_world (cursor : KVMFRCursor) (fill : Nat) : World where
  data := { capturing_data with show_cursor := true }
  shm := region_with
    { flags := 0, type := 1, width := 1, height := 1, pitch := 4, dataPos := 64 } cursor fill
  gs := one_texture

/-- A monochrome cursor shape, 2 pixels wide, stacked height 4 (decoded 2x2),
version 7, announced with the SHAPE and UPDATE bits. -/
def mono_cursor : KVMFRCursor where
  flags := 5
  x := 0
  y := 0
  version := 7
  type := 1
  width := 2
  height := 4
  dataPos := 128

/-- A masked-color cursor shape, 2x2, version 7, announced with the SHAPE and
UPDATE bits. -/
def masked_cursor : KVMFRCursor where
  flags := 5
  x := 0
  y := 0
  version := 7
  type := 2
  width := 2
  height := 2
  dataPos := 128

/-- The producer posts a new frame descriptor. -/
def post_frame (s : Shm) (d : KVMFRFrame) : Shm :=
  { s with hdr := { s.hdr with frame := d } }

/-- The producer posts a cursor descriptor and fills the payload with the byte
`fill`. -/
def post_shape (s : Shm) (c : KVMFRCursor) (fill : Nat) : Shm :=
  { hdr := { s.hdr with cursor := c }, mem := fun _ => fill }

/-- The part of the looking-glass `lg_video_tick` after the sanity test, for a
frame that passed it: clear the pending bit, resize when width or height
differ from the stored ones, upload. -/
def LookingGlass.poll_frame (K : KVMFR) (w : World) : World :=
  let header := w.shm.hdr.frame
  let w1 : World := { w with shm := clear_frame_flag w.shm K.KVMFR_FRAME_FLAG_UPDATE }
  let w2 := if header.width ≠ w1.data.width ∨ header.height ≠ w1.data.height
    then lg_resize_texture K w1 header else w1
  { w2 with gs := gs_texture_set_image w2.gs w2.data.texture
                    (ImagePtr.shm header.dataPos) header.pitch }

/-- A pending, valid 1x1 BGRA frame. -/
def frame_bgra : KVMFRFrame where
  flags := 1
  type := 1
  width := 1
  height := 1
  pitch := 4
  dataPos := 64

/-- A pending, valid 1x1 RGBA frame: `frame_bgra` with another pixel format. -/
def frame_rgba : KVMFRFrame where
  flags := 1
  type := 2
  width := 1
  height := 1
  pitch := 4
  dataPos := 64

/-- A pending, valid 2x1 BGRA frame. -/
def frame_bgra_wide : KVMFRFrame where
  flags := 1
  type := 1
  width := 2
  height := 1
  pitch := 8
  dataPos := 64

/-- A pending 2x2 frame of type 4 (`FRAME_TYPE_YUV420`, the label commented out
in `lg_resize_texture`): below `FRAME_TYPE_MAX`, so it passes the sanity test,
and not one of BGRA, RGBA, RGBA10. -/
def frame_yuv420 : KVMFRFrame where
  flags := 1
  type := 4
  width := 2
  height := 2
  pitch := 8
  dataPos := 64

/-- The fresh consumer facing a valid header that carries `frame_yuv420`. -/
def world_unsupported_start : World where
  data := fresh_data
  shm := region_with frame_yuv420 idle_cursor 0
  gs := { next := 0, live := [], calls := [] }

/-- A cursor descriptor that announces an update without a position change: of
the flag bits only UPDATE (1) is set, POS (8) is clear; it carries the
position (5, 6). -/
def cursor_update_only : KVMFRCursor where
  flags := 1
  x := 5
  y := 6
  version := 0
  type := 0
  width := 0
  height := 0
  dataPos := 0

/-- The consumer of the cursor-capable plugin as `lg_create` hands it to
`lg_capture_start`: everything zero, cursor overlay switched on, no texture,
facing the given region. -/
def world_before_start (s : Shm) : World where
  data := { fresh_data with show_cursor := true }
  shm := s
  gs := { next := 0, live := [], calls := [] }

/-- The number of 32-bit pixels `lg_fetch_cursor` writes into `cursor_image`
for a shape header: the bounds of its loops (`2*width*height` after
`height = height / 2` for monochrome, `width * height` for masked color, no
loop for any other type). -/
def LinuxKvmfr.pixels_written (K : KVMFR) (header : KVMFRCursor) : Nat :=
  if header.type = K.CURSOR_TYPE_MONOCHROME then 2 * header.width * (header.height / 2)
  else if header.type = K.CURSOR_TYPE_MASKED_COLOR then header.width * header.height
  else 0

/-- The pixel capacity of `cursor_image` at the moment `lg_fetch_cursor` runs
its loops, that is after its reallocation test; `NULL` holds no pixel. -/
def LinuxKvmfr.capacity (K : KVMFR) (data : lg_data) (header : KVMFRCursor) : Nat :=
  ((LinuxKvmfr.cursor_image_realloc K data header).getD []).length

/-- A sequence of cursor shape updates applied by `lg_fetch_cursor`, in order. -/
def LinuxKvmfr.fetch_sequence (K : KVMFR) : List KVMFRCursor → World → Except Fault World
  | [], w => Except.ok w
  | header :: rest, w =>
    match LinuxKvmfr.lg_fetch_cursor K w header with
    | Except.error e => Except.error e
    | Except.ok w1 => LinuxKvmfr.fetch_sequence K rest w1

/-- The fresh looking-glass consumer facing a valid header that carries
`frame_type_max`, a pending frame of type `FRAME_TYPE_MAX`. -/
def world_type_max_start : World where
  data := fresh_data
  shm := region_with frame_type_max idle_cursor 0
  gs := { next := 0, live := [], calls := [] }

/-! ## Theorems -/

/-- Claim C1, evaluated on the code: with a 4096-byte region and a pending
1x1 frame of pitch 4 at `dataPos = 4096` (so `dataPos + pitch*height = 4100`
exceeds the region size), the tick of each plugin does not discard the update:
it hands the renderer a pixel upload from offset 4096. -/
theorem C1_frame_past_region_end_is_uploaded :
    frame_at_region_end.flags &&& KVMFR_h.KVMFR_FRAME_FLAG_UPDATE ≠ 0 ∧
    world_frame_at_region_end.data.shmSize <
      frame_at_region_end.dataPos + frame_at_region_end.pitch * frame_at_region_end.height ∧
    (∃ w', LookingGlass.lg_video_tick KVMFR_h true world_frame_at_region_end = Except.ok w' ∧
      w'.gs.calls = [GsCall.gs_texture_set_image (some 0) (ImagePtr.shm 4096) 4]) ∧
    (∃ w', LinuxKvmfr.lg_video_tick KVMFR_h true world_frame_at_region_end = Except.ok w' ∧
      w'.gs.calls = [GsCall.gs_texture_set_image (some 0) (ImagePtr.shm 4096) 4]) := by
  refine ⟨by decide, by decide, ⟨_, rfl, rfl⟩, ⟨_, rfl, rfl⟩⟩

/-- Clearing a bit of a flag byte with `(uint8_t)~bit` leaves that bit clear,
whatever the bit is. -/
theorem and_not8_and (f u : Nat) : (f &&& not8 u) &&& u = 0 := by
  have h : not8 u &&& u = 0 := by
    apply Nat.eq_of_testBit_eq
    intro i
    have hlt : u % 2 ^ 8 < 2 ^ 8 := Nat.mod_lt _ (by norm_num)
    have e : not8 u = 2 ^ 8 - (u % 2 ^ 8 + 1) := by
      unfold not8
      omega
    rw [e, Nat.testBit_and, Nat.testBit_two_pow_sub_succ hlt, Nat.testBit_mod_two_pow]
    by_cases h8 : i < 8 <;> cases hb : u.testBit i <;> simp [h8]
  rw [Nat.and_assoc, h, Nat.and_zero]

/-- The frame flags after `clear_frame_flag` no longer carry the bit. -/
theorem clear_frame_flag_clear (s : Shm) (bit : Nat) :
    (clear_frame_flag s bit).hdr.frame.flags &&& bit = 0 := by
  simp [clear_frame_flag, and_not8_and]

namespace LookingGlass

/-- When the tick gets past its early returns and the pending frame fails the sanity
test, the only effect is the cleared pending bit. -/
theorem lg_video_tick_rejected (K : KVMFR) (w : World)
    (htex : w.data.texture.isSome = true) (hmap : w.data.header = true)
    (hupd : w.shm.hdr.frame.flags &&& K.KVMFR_FRAME_FLAG_UPDATE ≠ 0)
    (hbad : rejected K w.data.shmSize w.shm.hdr.frame) :
    lg_video_tick K true w =
      Except.ok { w with shm := clear_frame_flag w.shm K.KVMFR_FRAME_FLAG_UPDATE } := by
  have hnone : w.data.texture.isNone = false := by
    cases h : w.data.texture <;> simp_all
  unfold rejected at hbad
  unfold lg_video_tick
  simp only [Bool.not_true, Bool.false_eq_true, if_false, hnone, hmap, hupd, if_pos hbad]

end LookingGlass

/-- Claim C2, as the code has it: in the looking-glass plugin, a pending frame
whose pitch is smaller than its width (the pixel count, no bytes-per-pixel
factor) is discarded by `lg_video_tick`: the tick returns, makes no renderer
call (no surface recreate, no pixel upload) and leaves every field of the
consumer state, texture, width and height included, as it was. -/
theorem C2_pitch_below_width_discarded (K : KVMFR) (showing : Bool) (w : World)
    (hmap : w.data.header = true)
    (hupd : w.shm.hdr.frame.flags &&& K.KVMFR_FRAME_FLAG_UPDATE ≠ 0)
    (hpitch : w.shm.hdr.frame.pitch < w.shm.hdr.frame.width) :
    ∃ w', LookingGlass.lg_video_tick K showing w = Except.ok w' ∧
      w'.gs = w.gs ∧ w'.data = w.data := by
  cases showing with
  | false => exact ⟨w, by simp [LookingGlass.lg_video_tick], rfl, rfl⟩
  | true =>
    cases htex : w.data.texture with
    | none => exact ⟨w, by simp [LookingGlass.lg_video_tick, htex], rfl, rfl⟩
    | some t =>
      refine ⟨_, LookingGlass.lg_video_tick_rejected K w (by simp [htex]) hmap hupd ?_, rfl, rfl⟩
      exact Or.inr (Or.inr (Or.inr (Or.inr hpitch)))

/-- Claim C2 fails as stated: a pending 1x1 BGRA frame of pitch 3, smaller
than `width * bpp = 4`, is not discarded by `lg_video_tick`; the pixel upload
is issued with that pitch. -/
theorem C2_pitch_below_width_times_bpp_uploaded :
    frame_pitch_three.flags &&& KVMFR_h.KVMFR_FRAME_FLAG_UPDATE ≠ 0 ∧
    frame_pitch_three.pitch <
      frame_pitch_three.width * spec_bpp KVMFR_h frame_pitch_three.type ∧
    (∃ w', LookingGlass.lg_video_tick KVMFR_h true (capturing_world frame_pitch_three)
        = Except.ok w' ∧
      w'.gs.calls = [GsCall.gs_texture_set_image (some 0) (ImagePtr.shm 64) 3]) := by
  refine ⟨by decide, by decide, ⟨_, rfl, rfl⟩⟩

/-- Claim C2 (amended) at a concrete input: a pending 4x1 frame of pitch 3. -/
theorem C2_pitch_below_width_discarded_witness :
    ∃ w', LookingGlass.lg_video_tick KVMFR_h true (capturing_world frame_pitch_below_width)
        = Except.ok w' ∧
      w'.gs = (capturing_world frame_pitch_below_width).gs ∧
      w'.data = (capturing_world frame_pitch_below_width).data :=
  C2_pitch_below_width_discarded KVMFR_h true (capturing_world frame_pitch_below_width)
    rfl (by decide) (by decide)

/-- A magic array differing from the expected bytes in one position makes the
`memcmp` test of `lg_capture_start` succeed. -/
theorem memcmp_ne_of_differ (magic : Nat → Nat) (expected : List Nat) (i : Nat)
    (hi : i < expected.length) (hne : magic i ≠ expected.getD i 0) :
    memcmp_ne magic expected = true := by
  unfold memcmp_ne
  rw [List.any_eq_true]
  exact ⟨i, List.mem_range.2 hi, by simpa using hne⟩

namespace LookingGlass

/-- After `lg_capture_stop` the header is unmapped, no texture is held, and
the region is untouched. -/
theorem lg_capture_stop_unmapped (w : World) :
    (lg_capture_stop w).data.header = false ∧ (lg_capture_stop w).data.texture = none ∧
      (lg_capture_stop w).shm = w.shm := by
  unfold lg_capture_stop
  cases ht : w.data.texture <;> cases hh : w.data.header <;> simp [ht, hh]

/-- Without a texture the tick returns at once, whatever the region holds. -/
theorem lg_video_tick_no_texture (K : KVMFR) (showing : Bool) (w : World)
    (htex : w.data.texture = none) : lg_video_tick K showing w = Except.ok w := by
  unfold lg_video_tick
  cases showing <;> simp [htex]

/-- Without a texture no sequence of later ticks does anything: the consumer
state and the renderer are as before, and the region is what the producer last
wrote. -/
theorem later_ticks_no_texture (K : KVMFR) (steps : List (Bool × Shm)) (w : World)
    (htex : w.data.texture = none) :
    later_ticks K steps w =
      Except.ok { w with shm := ((steps.getLast?).map Prod.snd).getD w.shm } := by
  induction steps generalizing w with
  | nil => simp [later_ticks]
  | cons step rest ih =>
    have h1 := lg_video_tick_no_texture K step.1 { w with shm := step.2 } htex
    rw [later_ticks, h1]
    simp only
    rw [ih { w with shm := step.2 } htex]
    cases rest with
    | nil => simp
    | cons a t =>
      cases hl : (a :: t).getLast? with
      | none => simp at hl
      | some x => simp [List.getLast?_cons_cons, hl]

end LookingGlass

namespace LookingGlass

/-- When the magic or the version test fails, `lg_capture_start` ends in
`lg_capture_stop`. -/
theorem lg_capture_start_failed (K : KVMFR) (env : MapEnv) (w : World)
    (hbad : memcmp_ne w.shm.hdr.magic K.KVMFR_HEADER_MAGIC = true ∨
      w.shm.hdr.version ≠ K.KVMFR_HEADER_VERSION) :
    lg_capture_start K env w =
      lg_capture_stop { w with data := { (map_memory env w.data).1 with
        header := (map_memory env w.data).2 } } := by
  unfold lg_capture_start
  simp only
  split_ifs with h1 h2 h3
  · rfl
  · rfl
  · rfl
  · exfalso
    rcases hbad with h | h
    · exact h2 h
    · exact h3 h

end LookingGlass

/-- Claim C3 fails as stated: `lg_capture_start` on a valid header whose
pending frame has type `FRAME_TYPE_MAX` leaves the consumer mapped without a
texture (no format for that type), and the tick that follows, with the source
showing, returns at its `!data->texture` test before it reaches the atomic
clear: the update-pending bit of the invalid frame is still set. -/
theorem C3_pending_bit_kept_without_texture :
    KVMFR_h.FRAME_TYPE_MAX ≤ frame_type_max.type ∧
    frame_type_max.flags &&& KVMFR_h.KVMFR_FRAME_FLAG_UPDATE ≠ 0 ∧
    (LookingGlass.lg_capture_start KVMFR_h env_ok world_type_max_start).data.header = true ∧
    (LookingGlass.lg_capture_start KVMFR_h env_ok world_type_max_start).data.texture = none ∧
    (LookingGlass.lg_capture_start KVMFR_h env_ok world_type_max_start).shm.hdr.frame
      = frame_type_max ∧
    ∃ w1, LookingGlass.lg_video_tick KVMFR_h true
        (LookingGlass.lg_capture_start KVMFR_h env_ok world_type_max_start) = Except.ok w1 ∧
      w1.shm.hdr.frame.flags &&& KVMFR_h.KVMFR_FRAME_FLAG_UPDATE ≠ 0 :=
  ⟨by decide, by decide, rfl, rfl, rfl, _, rfl, by decide⟩

/-- Claim C3, as the code has it: in the looking-glass plugin, for every
consumer state that holds a texture only while the header is mapped, either
answer of `obs_source_showing`, and every pending frame with
`type >= FRAME_TYPE_MAX`, or `width = 0`, or `height = 0`, the tick returns and
discards the update: no renderer call is made (no surface recreate, no pixel
upload) and the consumer state, texture, width and height included, is exactly
as before.  When the tick gets past its early returns (source showing, texture
held) it clears the pending bit, and that is its only change to the region;
when it returns early (source not showing, or no texture) the region, pending
bit included, is exactly as before. -/
theorem C3_invalid_frame_discarded (K : KVMFR) (showing : Bool) (w : World)
    (hinv : w.data.texture.isSome = true → w.data.header = true)
    (hupd : w.shm.hdr.frame.flags &&& K.KVMFR_FRAME_FLAG_UPDATE ≠ 0)
    (hbad : K.FRAME_TYPE_MAX ≤ w.shm.hdr.frame.type ∨ w.shm.hdr.frame.width = 0 ∨
      w.shm.hdr.frame.height = 0) :
    ∃ w', LookingGlass.lg_video_tick K showing w = Except.ok w' ∧
      w'.gs = w.gs ∧ w'.gs.calls = w.gs.calls ∧
      w'.data = w.data ∧ w'.data.texture = w.data.texture ∧
      w'.data.width = w.data.width ∧ w'.data.height = w.data.height ∧
      (showing = true → w.data.texture.isSome = true →
        w'.shm = clear_frame_flag w.shm K.KVMFR_FRAME_FLAG_UPDATE ∧
        w'.shm.hdr.frame.flags &&& K.KVMFR_FRAME_FLAG_UPDATE = 0) ∧
      ((showing = false ∨ w.data.texture = none) → w'.shm = w.shm) := by
  cases showing with
  | false =>
    exact ⟨w, by simp [LookingGlass.lg_video_tick], rfl, rfl, rfl, rfl, rfl, rfl,
      fun h => Bool.noConfusion h, fun _ => rfl⟩
  | true =>
    cases htex : w.data.texture with
    | none =>
      exact ⟨w, LookingGlass.lg_video_tick_no_texture K true w htex, rfl, rfl, rfl, htex, rfl,
        rfl, fun _ h => by simp at h, fun _ => rfl⟩
    | some t =>
      have hsome : w.data.texture.isSome = true := by simp [htex]
      have hrej : LookingGlass.rejected K w.data.shmSize w.shm.hdr.frame := by
        rcases hbad with h | h | h
        · exact Or.inl h
        · exact Or.inr (Or.inl h)
        · exact Or.inr (Or.inr (Or.inl h))
      refine ⟨_, LookingGlass.lg_video_tick_rejected K w hsome (hinv hsome) hupd hrej,
        rfl, rfl, rfl, htex, rfl, rfl, fun _ _ => ⟨rfl, clear_frame_flag_clear _ _⟩, ?_⟩
      intro h
      rcases h with h | h
      · exact Bool.noConfusion h
      · exact Option.noConfusion h

/-- Claim C3 (amended) at a concrete input: the capturing consumer, source
showing, a pending frame of type `FRAME_TYPE_MAX`. -/
theorem C3_invalid_frame_discarded_witness :
    ∃ w', LookingGlass.lg_video_tick KVMFR_h true (capturing_world frame_type_max)
        = Except.ok w' ∧
      w'.gs = (capturing_world frame_type_max).gs ∧
      w'.gs.calls = (capturing_world frame_type_max).gs.calls ∧
      w'.data = (capturing_world frame_type_max).data ∧
      w'.data.texture = (capturing_world frame_type_max).data.texture ∧
      w'.data.width = (capturing_world frame_type_max).data.width ∧
      w'.data.height = (capturing_world frame_type_max).data.height ∧
      (true = true → (capturing_world frame_type_max).data.texture.isSome = true →
        w'.shm = clear_frame_flag (capturing_world frame_type_max).shm
          KVMFR_h.KVMFR_FRAME_FLAG_UPDATE ∧
        w'.shm.hdr.frame.flags &&& KVMFR_h.KVMFR_FRAME_FLAG_UPDATE = 0) ∧
      ((true = false ∨ (capturing_world frame_type_max).data.texture = none) →
        w'.shm = (capturing_world frame_type_max).shm) :=
  C3_invalid_frame_discarded KVMFR_h true (capturing_world frame_type_max)
    (fun _ => rfl) (by decide) (Or.inl (by decide))

/-- Claim C4: in the looking-glass plugin, when the region's magic differs from
`KVMFR_HEADER_MAGIC` in at least one byte, or its version field differs from
`KVMFR_HEADER_VERSION` (in particular when the magic matches and the version
does not), `lg_capture_start` ends unmapped (`header = NULL`,
`texture = NULL`) without having changed the region, and every later sequence
of ticks, whatever the producer writes into the region in between and whether
or not the source is showing, returns with the consumer state and the renderer
exactly as `lg_capture_start` left them and the region exactly as the producer
last wrote it: nothing is read, no flag is cleared, no call is made. -/
theorem C4_failed_validation_never_polls (K : KVMFR) (env : MapEnv) (w : World)
    (hbad : (∃ i, i < K.KVMFR_HEADER_MAGIC.length ∧
        w.shm.hdr.magic i ≠ K.KVMFR_HEADER_MAGIC.getD i 0) ∨
      w.shm.hdr.version ≠ K.KVMFR_HEADER_VERSION) :
    (LookingGlass.lg_capture_start K env w).data.header = false ∧
    (LookingGlass.lg_capture_start K env w).data.texture = none ∧
    (LookingGlass.lg_capture_start K env w).shm = w.shm ∧
    ∀ steps : List (Bool × Shm),
      LookingGlass.later_ticks K steps (LookingGlass.lg_capture_start K env w) =
        Except.ok { LookingGlass.lg_capture_start K env w with
          shm := ((steps.getLast?).map Prod.snd).getD w.shm } := by
  have hfail : memcmp_ne w.shm.hdr.magic K.KVMFR_HEADER_MAGIC = true ∨
      w.shm.hdr.version ≠ K.KVMFR_HEADER_VERSION := by
    rcases hbad with ⟨i, hi, hne⟩ | h
    · exact Or.inl (memcmp_ne_of_differ _ _ i hi hne)
    · exact Or.inr h
  have hstop := LookingGlass.lg_capture_stop_unmapped
    { w with data := { (map_memory env w.data).1 with header := (map_memory env w.data).2 } }
  rw [← LookingGlass.lg_capture_start_failed K env w hfail] at hstop
  obtain ⟨h1, h2, h3⟩ := hstop
  refine ⟨h1, h2, h3, ?_⟩
  intro steps
  rw [LookingGlass.later_ticks_no_texture K steps _ h2, h3]

/-- Claim C4 at a concrete input: a fresh consumer, a file that maps, a region
whose magic bytes are all zero. -/
theorem C4_failed_validation_never_polls_witness :
    (LookingGlass.lg_capture_start KVMFR_h env_ok world_bad_magic).data.header = false ∧
    (LookingGlass.lg_capture_start KVMFR_h env_ok world_bad_magic).data.texture = none ∧
    (LookingGlass.lg_capture_start KVMFR_h env_ok world_bad_magic).shm = world_bad_magic.shm ∧
    ∀ steps : List (Bool × Shm),
      LookingGlass.later_ticks KVMFR_h steps
          (LookingGlass.lg_capture_start KVMFR_h env_ok world_bad_magic) =
        Except.ok { LookingGlass.lg_capture_start KVMFR_h env_ok world_bad_magic with
          shm := ((steps.getLast?).map Prod.snd).getD world_bad_magic.shm } :=
  C4_failed_validation_never_polls KVMFR_h env_ok world_bad_magic
    (Or.inl ⟨0, by decide, by decide⟩)

/-- For comparison with claim C4: on a region that validates and carries a BGRA
frame, the same `lg_capture_start` from the same fresh consumer ends mapped,
with a texture of the frame's size. -/
theorem LookingGlass.lg_capture_start_valid_header :
    (LookingGlass.lg_capture_start KVMFR_h env_ok
      { world_unsupported_start with shm := region_with frame_bgra idle_cursor 0 }).data
      = { fresh_data with header := true, shmSize := 4096, width := 1, height := 1,
                          texture := some 0 } := by
  decide

namespace LinuxKvmfr

end LinuxKvmfr


namespace LinuxKvmfr

end LinuxKvmfr

/-- The function `lg_resize_texture` touches neither the region nor the
mapping pointer. -/
theorem lg_resize_texture_shm_header (K : KVMFR) (w : World) (header : KVMFRFrame) :
    (lg_resize_texture K w header).shm = w.shm ∧
    (lg_resize_texture K w header).data.header = w.data.header := by
  unfold lg_resize_texture
  simp only
  split <;> exact ⟨rfl, rfl⟩

namespace LookingGlass

/-- With the header mapped and no frame pending the tick does nothing. -/
theorem lg_video_tick_idle (K : KVMFR) (showing : Bool) (w : World)
    (hmap : w.data.header = true)
    (hclear : w.shm.hdr.frame.flags &&& K.KVMFR_FRAME_FLAG_UPDATE = 0) :
    lg_video_tick K showing w = Except.ok w := by
  unfold lg_video_tick
  simp only [hmap, hclear, Bool.not_true, Bool.false_eq_true, if_false, if_true]
  split
  · rfl
  · split <;> rfl

/-- When the tick gets past its early returns and the pending frame passes the sanity
test, the tick is `poll_frame`. -/
theorem lg_video_tick_accepted (K : KVMFR) (w : World)
    (htex : w.data.texture.isSome = true) (hmap : w.data.header = true)
    (hupd : w.shm.hdr.frame.flags &&& K.KVMFR_FRAME_FLAG_UPDATE ≠ 0)
    (hgood : ¬ rejected K w.data.shmSize w.shm.hdr.frame) :
    lg_video_tick K true w = Except.ok (poll_frame K w) := by
  have hnone : w.data.texture.isNone = false := by
    cases h : w.data.texture <;> simp_all
  unfold rejected at hgood
  unfold lg_video_tick poll_frame
  simp only [Bool.not_true, Bool.false_eq_true, if_false, hnone, hmap, hupd, if_neg hgood]

/-- Polling a frame of the stored size: the upload is the only call, the
consumer state is unchanged. -/
theorem poll_frame_same_size (K : KVMFR) (w : World)
    (hw : w.shm.hdr.frame.width = w.data.width) (hh : w.shm.hdr.frame.height = w.data.height) :
    (poll_frame K w).data = w.data ∧
    (poll_frame K w).gs.calls = w.gs.calls ++
      [GsCall.gs_texture_set_image w.data.texture (ImagePtr.shm w.shm.hdr.frame.dataPos)
        w.shm.hdr.frame.pitch] ∧
    (poll_frame K w).gs.next = w.gs.next ∧ (poll_frame K w).gs.live = w.gs.live := by
  unfold poll_frame
  simp [hw, hh, gs_texture_set_image]

/-- Polling a frame of a supported type whose size differs from the stored
one: the texture is destroyed, a new one is created with the new size and the
format of the type, and the upload goes to the new one. -/
theorem poll_frame_new_size (K : KVMFR) (w : World) (t : Nat) (fmt : gs_color_format)
    (htex : w.data.texture = some t)
    (hfmt : colorFormat K w.shm.hdr.frame.type = some fmt)
    (hsz : w.shm.hdr.frame.width ≠ w.data.width ∨ w.shm.hdr.frame.height ≠ w.data.height) :
    (poll_frame K w).data = { w.data with width := w.shm.hdr.frame.width,
                                          height := w.shm.hdr.frame.height,
                                          texture := some w.gs.next } ∧
    (poll_frame K w).gs.calls = w.gs.calls ++
      [GsCall.gs_texture_destroy (some t),
       GsCall.gs_texture_create w.shm.hdr.frame.width w.shm.hdr.frame.height fmt w.gs.next,
       GsCall.gs_texture_set_image (some w.gs.next) (ImagePtr.shm w.shm.hdr.frame.dataPos)
        w.shm.hdr.frame.pitch] ∧
    (poll_frame K w).gs.live = w.gs.next :: w.gs.live.erase t := by
  unfold poll_frame
  simp [hsz, lg_resize_texture, htex, hfmt, gs_texture_set_image, gs_texture_create,
    gs_texture_destroy]

/-- Polling a frame changes the region only by the cleared pending bit and
keeps the mapping. -/
theorem poll_frame_shm (K : KVMFR) (w : World) :
    (poll_frame K w).shm = clear_frame_flag w.shm K.KVMFR_FRAME_FLAG_UPDATE ∧
    (poll_frame K w).data.header = w.data.header := by
  unfold poll_frame
  simp only
  split
  · exact lg_resize_texture_shm_header K _ _
  · exact ⟨rfl, rfl⟩

/-- After a frame of a supported type has been polled, the stored size is the
frame's, a texture is held, and mapping and region size are as before. -/
theorem poll_frame_supported (K : KVMFR) (w : World)
    (htex : w.data.texture.isSome = true)
    (hfmt : (colorFormat K w.shm.hdr.frame.type).isSome = true) :
    (poll_frame K w).data.width = w.shm.hdr.frame.width ∧
    (poll_frame K w).data.height = w.shm.hdr.frame.height ∧
    (poll_frame K w).data.texture.isSome = true ∧
    (poll_frame K w).data.header = w.data.header ∧
    (poll_frame K w).data.shmSize = w.data.shmSize := by
  obtain ⟨t, ht⟩ := Option.isSome_iff_exists.1 htex
  obtain ⟨fmt, hf⟩ := Option.isSome_iff_exists.1 hfmt
  by_cases hsz : w.shm.hdr.frame.width ≠ w.data.width ∨ w.shm.hdr.frame.height ≠ w.data.height
  · rw [(poll_frame_new_size K w t fmt ht hf hsz).1]
    simp
  · have hw : w.shm.hdr.frame.width = w.data.width := by
      by_contra h
      exact hsz (Or.inl h)
    have hh : w.shm.hdr.frame.height = w.data.height := by
      by_contra h
      exact hsz (Or.inr h)
    rw [(poll_frame_same_size K w hw hh).1]
    exact ⟨hw.symm, hh.symm, htex, rfl, rfl⟩

end LookingGlass

/-- Claim C7 fails as stated: after `lg_capture_start` on a valid header whose
pending frame has a type no texture is created for, the consumer is mapped
without a texture, the tick returns at its `!data->texture` test, and the
update-pending bit is still set after the tick. -/
theorem C7_pending_bit_survives_gated_tick :
    (LookingGlass.lg_capture_start KVMFR_h env_ok world_unsupported_start).data.header = true ∧
    (LookingGlass.lg_capture_start KVMFR_h env_ok world_unsupported_start).data.texture = none ∧
    ∃ w1, LookingGlass.lg_video_tick KVMFR_h true
        (LookingGlass.lg_capture_start KVMFR_h env_ok world_unsupported_start) = Except.ok w1 ∧
      w1.shm.hdr.frame.flags &&& KVMFR_h.KVMFR_FRAME_FLAG_UPDATE ≠ 0 :=
  ⟨rfl, rfl, _, rfl, by decide⟩

/-- Claim C7, as the code has it: for every consumer state that holds a texture
only while the header is mapped, every region content and either answer of
`obs_source_showing`, the looking-glass tick returns a state on which a second
tick (nothing written in between) returns that very state: no renderer call,
no change of the consumer state, no change of any byte of the region, that is
`tick (tick s) = tick s`.  The update-pending bit is clear after the first
tick whenever that tick gets past its early returns (source showing, texture
held); when the first tick returns early (source not showing, or no texture)
it changes nothing at all, so the pending bit is left as it was. -/
theorem C7_second_tick_does_nothing (K : KVMFR) (showing : Bool) (w : World)
    (hinv : w.data.texture.isSome = true → w.data.header = true) :
    ∃ w1, LookingGlass.lg_video_tick K showing w = Except.ok w1 ∧
      LookingGlass.lg_video_tick K showing w1 = Except.ok w1 ∧
      (showing = true → w.data.texture.isSome = true →
        w1.shm.hdr.frame.flags &&& K.KVMFR_FRAME_FLAG_UPDATE = 0) ∧
      ((showing = false ∨ w.data.texture = none) →
        w1 = w ∧ w1.shm.hdr.frame.flags = w.shm.hdr.frame.flags) := by
  have hearly : ∀ t : Nat, (true = false ∨ some t = (none : Option Nat)) → False := by
    intro t h
    rcases h with h | h
    · exact Bool.noConfusion h
    · exact Option.noConfusion h
  cases showing with
  | false =>
    exact ⟨w, by simp [LookingGlass.lg_video_tick], by simp [LookingGlass.lg_video_tick],
      fun h => Bool.noConfusion h, fun _ => ⟨rfl, rfl⟩⟩
  | true =>
    cases htex : w.data.texture with
    | none =>
      exact ⟨w, LookingGlass.lg_video_tick_no_texture K true w htex,
        LookingGlass.lg_video_tick_no_texture K true w htex, fun _ h => by simp at h,
        fun _ => ⟨rfl, rfl⟩⟩
    | some t =>
      have hsome : w.data.texture.isSome = true := by simp [htex]
      have hmap := hinv hsome
      by_cases hupd : w.shm.hdr.frame.flags &&& K.KVMFR_FRAME_FLAG_UPDATE = 0
      · exact ⟨w, LookingGlass.lg_video_tick_idle K true w hmap hupd,
          LookingGlass.lg_video_tick_idle K true w hmap hupd, fun _ _ => hupd,
          fun _ => ⟨rfl, rfl⟩⟩
      · by_cases hrej : LookingGlass.rejected K w.data.shmSize w.shm.hdr.frame
        · refine ⟨_, LookingGlass.lg_video_tick_rejected K w hsome hmap hupd hrej, ?_,
            fun _ _ => clear_frame_flag_clear _ _, fun h => (hearly t h).elim⟩
          exact LookingGlass.lg_video_tick_idle K true _ hmap (clear_frame_flag_clear _ _)
        · have hclear : (LookingGlass.poll_frame K w).shm.hdr.frame.flags &&&
              K.KVMFR_FRAME_FLAG_UPDATE = 0 := by
            rw [(LookingGlass.poll_frame_shm K w).1]
            exact clear_frame_flag_clear _ _
          refine ⟨_, LookingGlass.lg_video_tick_accepted K w hsome hmap hupd hrej, ?_,
            fun _ _ => hclear, fun h => (hearly t h).elim⟩
          exact LookingGlass.lg_video_tick_idle K true _
            ((LookingGlass.poll_frame_shm K w).2.trans hmap) hclear

/-- Claim C7 (amended) at a concrete input: the capturing consumer, source
showing, a pending valid frame. -/
theorem C7_second_tick_does_nothing_witness :
    ∃ w1, LookingGlass.lg_video_tick KVMFR_h true (capturing_world frame_bgra) = Except.ok w1 ∧
      LookingGlass.lg_video_tick KVMFR_h true w1 = Except.ok w1 ∧
      (true = true → (capturing_world frame_bgra).data.texture.isSome = true →
        w1.shm.hdr.frame.flags &&& KVMFR_h.KVMFR_FRAME_FLAG_UPDATE = 0) ∧
      ((true = false ∨ (capturing_world frame_bgra).data.texture = none) →
        w1 = capturing_world frame_bgra ∧
        w1.shm.hdr.frame.flags = (capturing_world frame_bgra).shm.hdr.frame.flags) :=
  C7_second_tick_does_nothing KVMFR_h true (capturing_world frame_bgra) (fun _ => rfl)

/-- Claim C8 fails as stated: two consecutive valid frames that differ in type
alone (BGRA then RGBA, both 1x1).  The second tick makes a single renderer
call, the pixel upload into the texture created for the first frame: no
surface is recreated. -/
theorem C8_type_change_alone_no_recreate :
    frame_rgba.type ≠ frame_bgra.type ∧ frame_rgba.width = frame_bgra.width ∧
    frame_rgba.height = frame_bgra.height ∧
    ¬ LookingGlass.rejected KVMFR_h 4096 frame_bgra ∧
    ¬ LookingGlass.rejected KVMFR_h 4096 frame_rgba ∧
    ∃ w1 w2, LookingGlass.lg_video_tick KVMFR_h true (capturing_world frame_bgra)
        = Except.ok w1 ∧
      LookingGlass.lg_video_tick KVMFR_h true { w1 with shm := post_frame w1.shm frame_rgba }
        = Except.ok w2 ∧
      w2.gs.calls = w1.gs.calls ++
        [GsCall.gs_texture_set_image (some 0) (ImagePtr.shm 64) 4] ∧
      w2.data.texture = w1.data.texture :=
  ⟨by decide, rfl, rfl, by unfold LookingGlass.rejected; decide,
    by unfold LookingGlass.rejected; decide, _, _, rfl, rfl, rfl, rfl⟩

/-- Claim C8, as the code has it: two consecutive frames that pass the sanity
test of `lg_video_tick`, the first of a type a texture is created for (BGRA,
RGBA, RGBA10).  Both ticks return.  If the second frame differs from the first
in width or in height and its type is one a texture is created for, the second
tick makes exactly these calls, in this order: destroy the current texture,
create one with the new width and height and the format of the new type,
upload into the new texture.  If width and height are both equal, whatever the
types, the second tick makes exactly one call, the upload into the current
texture, which is kept. -/
theorem C8_recreate_on_size_change_only (K : KVMFR) (w : World) (d2 : KVMFRFrame)
    (htex : w.data.texture.isSome = true) (hmap : w.data.header = true)
    (hupd1 : w.shm.hdr.frame.flags &&& K.KVMFR_FRAME_FLAG_UPDATE ≠ 0)
    (hok1 : ¬ LookingGlass.rejected K w.data.shmSize w.shm.hdr.frame)
    (hfmt1 : (colorFormat K w.shm.hdr.frame.type).isSome = true)
    (hupd2 : d2.flags &&& K.KVMFR_FRAME_FLAG_UPDATE ≠ 0)
    (hok2 : ¬ LookingGlass.rejected K w.data.shmSize d2) :
    ∃ w1 w2 t1, LookingGlass.lg_video_tick K true w = Except.ok w1 ∧
      w1.data.texture = some t1 ∧
      LookingGlass.lg_video_tick K true { w1 with shm := post_frame w1.shm d2 }
        = Except.ok w2 ∧
      ((d2.width ≠ w.shm.hdr.frame.width ∨ d2.height ≠ w.shm.hdr.frame.height) →
        ∀ fmt, colorFormat K d2.type = some fmt →
          w2.gs.calls = w1.gs.calls ++
            [GsCall.gs_texture_destroy (some t1),
             GsCall.gs_texture_create d2.width d2.height fmt w1.gs.next,
             GsCall.gs_texture_set_image (some w1.gs.next) (ImagePtr.shm d2.dataPos) d2.pitch]) ∧
      (d2.width = w.shm.hdr.frame.width → d2.height = w.shm.hdr.frame.height →
        w2.gs.calls = w1.gs.calls ++
          [GsCall.gs_texture_set_image (some t1) (ImagePtr.shm d2.dataPos) d2.pitch] ∧
        w2.data.texture = some t1) := by
  obtain ⟨hw1, hh1, ht1, hm1, hs1⟩ := LookingGlass.poll_frame_supported K w htex hfmt1
  obtain ⟨t1, ht1'⟩ := Option.isSome_iff_exists.1 ht1
  have htick2 := LookingGlass.lg_video_tick_accepted K
    { LookingGlass.poll_frame K w with shm := post_frame (LookingGlass.poll_frame K w).shm d2 }
    ht1 (hm1.trans hmap) hupd2 (by rw [show _ = w.data.shmSize from hs1]; exact hok2)
  refine ⟨_, _, t1, LookingGlass.lg_video_tick_accepted K w htex hmap hupd1 hok1, ht1',
    htick2, ?_, ?_⟩
  · intro hsz fmt hfmt
    have hsz' : d2.width ≠ (LookingGlass.poll_frame K w).data.width ∨
        d2.height ≠ (LookingGlass.poll_frame K w).data.height := by
      rw [hw1, hh1]
      exact hsz
    exact (LookingGlass.poll_frame_new_size K
      { LookingGlass.poll_frame K w with
        shm := post_frame (LookingGlass.poll_frame K w).shm d2 } t1 fmt ht1' hfmt hsz').2.1
  · intro hw hh
    have h := LookingGlass.poll_frame_same_size K
      { LookingGlass.poll_frame K w with
        shm := post_frame (LookingGlass.poll_frame K w).shm d2 }
      (hw.trans hw1.symm) (hh.trans hh1.symm)
    refine ⟨?_, ?_⟩
    · rw [h.2.1]
      simp [post_frame, ht1']
    · rw [h.1]
      exact ht1'

/-- Claim C8 (amended) at a concrete input: a 1x1 BGRA frame followed by a 2x1
BGRA frame. -/
theorem C8_recreate_on_size_change_only_witness :
    ∃ w1 w2 t1, LookingGlass.lg_video_tick KVMFR_h true (capturing_world frame_bgra)
        = Except.ok w1 ∧
      w1.data.texture = some t1 ∧
      LookingGlass.lg_video_tick KVMFR_h true { w1 with shm := post_frame w1.shm frame_bgra_wide }
        = Except.ok w2 ∧
      ((frame_bgra_wide.width ≠ (capturing_world frame_bgra).shm.hdr.frame.width ∨
          frame_bgra_wide.height ≠ (capturing_world frame_bgra).shm.hdr.frame.height) →
        ∀ fmt, colorFormat KVMFR_h frame_bgra_wide.type = some fmt →
          w2.gs.calls = w1.gs.calls ++
            [GsCall.gs_texture_destroy (some t1),
             GsCall.gs_texture_create frame_bgra_wide.width frame_bgra_wide.height fmt w1.gs.next,
             GsCall.gs_texture_set_image (some w1.gs.next) (ImagePtr.shm frame_bgra_wide.dataPos)
               frame_bgra_wide.pitch]) ∧
      (frame_bgra_wide.width = (capturing_world frame_bgra).shm.hdr.frame.width →
        frame_bgra_wide.height = (capturing_world frame_bgra).shm.hdr.frame.height →
        w2.gs.calls = w1.gs.calls ++
          [GsCall.gs_texture_set_image (some t1) (ImagePtr.shm frame_bgra_wide.dataPos)
            frame_bgra_wide.pitch] ∧
        w2.data.texture = some t1) :=
  C8_recreate_on_size_change_only KVMFR_h (capturing_world frame_bgra) frame_bgra_wide
    rfl rfl (by decide) (by unfold LookingGlass.rejected; decide) rfl (by decide)
    (by unfold LookingGlass.rejected; decide)

/-- Polling a frame that passed the sanity test, whose type falls to `default`
in `lg_resize_texture` and whose size differs from the stored one: the held
texture is destroyed, none is created, the upload goes to the destroyed handle
and `data->texture` keeps it; this holds whatever the constants of `KVMFR.h`
are. -/
theorem LookingGlass.poll_frame_unsupported (K : KVMFR) (w : World) (t : Nat)
    (htex : w.data.texture = some t)
    (hfmt : colorFormat K w.shm.hdr.frame.type = none)
    (hsz : w.shm.hdr.frame.width ≠ w.data.width ∨ w.shm.hdr.frame.height ≠ w.data.height) :
    (LookingGlass.poll_frame K w).data = w.data ∧
    (LookingGlass.poll_frame K w).gs.calls = w.gs.calls ++
      [GsCall.gs_texture_destroy (some t),
       GsCall.gs_texture_set_image (some t) (ImagePtr.shm w.shm.hdr.frame.dataPos)
        w.shm.hdr.frame.pitch] ∧
    (LookingGlass.poll_frame K w).gs.live = w.gs.live.erase t := by
  unfold LookingGlass.poll_frame
  simp [hsz, lg_resize_texture, htex, hfmt, gs_texture_set_image, gs_texture_destroy]

/-- Claim C9, evaluated on the code: the capturing consumer holds the live 1x1
texture 0 and polls a pending 2x2 frame of type 4, a type that is none of
BGRA, RGBA, RGBA10 and lies below `FRAME_TYPE_MAX`.  `lg_resize_texture`
destroys texture 0 before it looks at the type, returns at `default` without
creating a texture, and `lg_video_tick` then uploads into the destroyed
handle: `data->texture` still holds handle 0, which is no longer live.  Only
width and height are kept. -/
theorem C9_unsupported_type_destroys_surface :
    colorFormat KVMFR_h frame_yuv420.type = none ∧
    frame_yuv420.width ≠ (capturing_world frame_yuv420).data.width ∧
    (capturing_world frame_yuv420).data.texture = some 0 ∧
    0 ∈ (capturing_world frame_yuv420).gs.live ∧
    ∃ w1, LookingGlass.lg_video_tick KVMFR_h true (capturing_world frame_yuv420)
        = Except.ok w1 ∧
      w1.gs.calls = [GsCall.gs_texture_destroy (some 0),
        GsCall.gs_texture_set_image (some 0) (ImagePtr.shm 64) 8] ∧
      w1.data.texture = some 0 ∧ 0 ∉ w1.gs.live ∧
      w1.data.width = 1 ∧ w1.data.height = 1 :=
  ⟨rfl, by decide, rfl, by decide, _, rfl, rfl, rfl, by decide, rfl, rfl⟩

namespace LinuxKvmfr

/-- The last part of `lg_fetch_cursor` assigns no `cursor_version`. -/
theorem cursor_texture_update_version (w : World) (width height : Nat) (dest : ImagePtr) :
    (cursor_texture_update w width height dest).data.cursor_version = w.data.cursor_version := by
  unfold cursor_texture_update
  simp only
  split <;> rfl

/-- No path through `lg_fetch_cursor` assigns `cursor_version`. -/
theorem lg_fetch_cursor_version (K : KVMFR) (w w' : World) (header : KVMFRCursor)
    (h : lg_fetch_cursor K w header = Except.ok w') :
    w'.data.cursor_version = w.data.cursor_version := by
  unfold lg_fetch_cursor at h
  simp only at h
  split at h
  · exact Except.noConfusion h
  · split at h
    · exact Except.noConfusion h
    · split at h
      · split at h
        · exact Except.noConfusion h
        · injection h with h
          rw [← h, cursor_texture_update_version]
      · split at h
        · split at h
          · exact Except.noConfusion h
          · injection h with h
            rw [← h, cursor_texture_update_version]
        · injection h with h
          rw [← h, cursor_texture_update_version]

/-- The shape step of `lg_video_tick_cursor` assigns no `cursor_version`. -/
theorem shape_step_version (K : KVMFR) (w1 w' : World) (header : KVMFRCursor) (vis : Bool)
    (h : (match lg_fetch_cursor K w1 header with
      | Except.error e => Except.error e
      | Except.ok w2 =>
        Except.ok { w2 with
          shm := reset_cursor_flags w2.shm
          data := { w2.data with cursor_visible := vis } }) = Except.ok w') :
    w'.data.cursor_version = w1.data.cursor_version := by
  cases hr : lg_fetch_cursor K w1 header with
  | error e =>
    rw [hr] at h
    exact Except.noConfusion h
  | ok w2 =>
    rw [hr] at h
    injection h with h
    rw [← h]
    exact lg_fetch_cursor_version K w1 w2 header hr

/-- No path through `lg_video_tick_cursor` assigns `cursor_version`: the cached
shape version after the tick is the one before it. -/
theorem lg_video_tick_cursor_version (K : KVMFR) (w w' : World)
    (h : lg_video_tick_cursor K w = Except.ok w') :
    w'.data.cursor_version = w.data.cursor_version := by
  unfold lg_video_tick_cursor at h
  by_cases hmap : w.data.header = true
  · simp only [hmap, Bool.not_true, Bool.false_eq_true, if_false] at h
    split_ifs at h
    all_goals first
      | (have h2 := shape_step_version K _ _ _ _ h
         exact h2)
      | (injection h with h
         rw [← h])
  · simp only [hmap, Bool.not_false, if_true] at h
    exact Except.noConfusion h

end LinuxKvmfr

/-- Claim C10, evaluated on the code: the cached version is 0 and the cursor
descriptor announces a shape (SHAPE and UPDATE bits) of version 7.  The tick
decodes the shape, and afterwards `cursor_version` is still 0, not 7.  When the
producer then presents the SHAPE bit with the same version 7 (here with other
bitmap bytes, to make the decode visible), the next tick decodes the shape
again: the decode buffer is rewritten and uploaded once more, and
`cursor_version` is still 0. -/
theorem C10_shape_version_never_cached :
    masked_cursor.flags &&& KVMFR_h.KVMFR_CURSOR_FLAG_SHAPE ≠ 0 ∧
    masked_cursor.version ≠ (cursor_world masked_cursor 165).data.cursor_version ∧
    ∃ w1 w2, LinuxKvmfr.lg_video_tick_cursor KVMFR_h (cursor_world masked_cursor 165)
        = Except.ok w1 ∧
      w1.gs.calls = [GsCall.gs_texture_destroy none,
        GsCall.gs_texture_create 2 2 gs_color_format.GS_BGRA 1,
        GsCall.gs_texture_set_image (some 1) (ImagePtr.cursor_image 0) 8] ∧
      w1.data.cursor_image = some [0x00A5A5A5, 0x00A5A5A5, 0x00A5A5A5, 0x00A5A5A5] ∧
      w1.data.cursor_version = 0 ∧
      LinuxKvmfr.lg_video_tick_cursor KVMFR_h
        { w1 with shm := post_shape w1.shm masked_cursor 0 }
        = Except.ok w2 ∧
      w2.gs.calls = w1.gs.calls ++ [GsCall.gs_texture_destroy none,
        GsCall.gs_texture_set_image (some 1) (ImagePtr.cursor_image 0) 8] ∧
      w2.data.cursor_image = some [0xFF000000, 0xFF000000, 0xFF000000, 0xFF000000] ∧
      w2.data.cursor_version = 0 :=
  ⟨by decide, by decide, _, _, rfl, rfl, by decide, rfl, rfl, rfl, by decide, rfl⟩

namespace LinuxKvmfr

/-- The last part of `lg_fetch_cursor` assigns no cached position. -/
theorem cursor_texture_update_position (w : World) (width height : Nat) (dest : ImagePtr) :
    (cursor_texture_update w width height dest).data.cursor_x = w.data.cursor_x ∧
    (cursor_texture_update w width height dest).data.cursor_y = w.data.cursor_y := by
  unfold cursor_texture_update
  simp only
  split <;> exact ⟨rfl, rfl⟩

/-- No path through `lg_fetch_cursor` assigns the cached position. -/
theorem lg_fetch_cursor_position (K : KVMFR) (w w' : World) (header : KVMFRCursor)
    (h : lg_fetch_cursor K w header = Except.ok w') :
    w'.data.cursor_x = w.data.cursor_x ∧ w'.data.cursor_y = w.data.cursor_y := by
  unfold lg_fetch_cursor at h
  simp only at h
  split at h
  · exact Except.noConfusion h
  · split at h
    · exact Except.noConfusion h
    · split at h
      · split at h
        · exact Except.noConfusion h
        · injection h with h
          rw [← h]
          exact cursor_texture_update_position _ _ _ _
      · split at h
        · split at h
          · exact Except.noConfusion h
          · injection h with h
            rw [← h]
            exact cursor_texture_update_position _ _ _ _
        · injection h with h
          rw [← h]
          exact cursor_texture_update_position _ _ _ _

/-- The shape step of `lg_video_tick_cursor` assigns no cached position. -/
theorem shape_step_position (K : KVMFR) (w1 w' : World) (header : KVMFRCursor) (vis : Bool)
    (h : (match lg_fetch_cursor K w1 header with
      | Except.error e => Except.error e
      | Except.ok w2 =>
        Except.ok { w2 with
          shm := reset_cursor_flags w2.shm
          data := { w2.data with cursor_visible := vis } }) = Except.ok w') :
    w'.data.cursor_x = w1.data.cursor_x ∧ w'.data.cursor_y = w1.data.cursor_y := by
  cases hr : lg_fetch_cursor K w1 header with
  | error e =>
    rw [hr] at h
    exact Except.noConfusion h
  | ok w2 =>
    rw [hr] at h
    injection h with h
    rw [← h]
    exact lg_fetch_cursor_position K w1 w2 header hr

/-- The position test of `lg_video_tick_cursor` is the logical `&&`: whenever
any bit of `cursor.flags` is set (and the POS constant is nonzero), a tick that
returns has copied the descriptor's position into the cache, whether or not
the POS bit is among the bits set. -/
theorem lg_video_tick_cursor_position (K : KVMFR) (w w' : World)
    (hpos : K.KVMFR_CURSOR_FLAG_POS ≠ 0) (hflags : w.shm.hdr.cursor.flags ≠ 0)
    (h : lg_video_tick_cursor K w = Except.ok w') :
    w'.data.cursor_x = w.shm.hdr.cursor.x ∧ w'.data.cursor_y = w.shm.hdr.cursor.y := by
  unfold lg_video_tick_cursor at h
  by_cases hmap : w.data.header = true
  · have hc : w.shm.hdr.cursor.flags ≠ 0 ∧ K.KVMFR_CURSOR_FLAG_POS ≠ 0 := ⟨hflags, hpos⟩
    simp only [hmap, Bool.not_true, Bool.false_eq_true, if_false, if_pos hc] at h
    split_ifs at h
    all_goals first
      | (have h2 := shape_step_position K _ _ _ _ h
         exact h2)
      | (injection h with h
         rw [← h]
         exact ⟨rfl, rfl⟩)
  · simp only [hmap, Bool.not_false, if_true] at h
    exact Except.noConfusion h

end LinuxKvmfr

/-- Claim C11, evaluated on the code: the cached position is (0, 0) and the
cursor descriptor carries the position (5, 6) with only the UPDATE bit set,
the POS bit clear.  The claim says the cached position stays (0, 0); the tick
copies (5, 6) into it, because the test is `cursor.flags && KVMFR_CURSOR_FLAG_POS`. -/
theorem C11_position_copied_without_pos_bit :
    cursor_update_only.flags &&& KVMFR_h.KVMFR_CURSOR_FLAG_POS = 0 ∧
    (cursor_world cursor_update_only 0).data.cursor_x = 0 ∧
    (cursor_world cursor_update_only 0).data.cursor_y = 0 ∧
    ∃ w', LinuxKvmfr.lg_video_tick_cursor KVMFR_h (cursor_world cursor_update_only 0)
        = Except.ok w' ∧
      w'.data.cursor_x = 5 ∧ w'.data.cursor_y = 6 :=
  ⟨by decide, rfl, rfl, _, rfl, rfl, rfl⟩

namespace LinuxKvmfr

/-- With the header mapped, `lg_video_tick_frame` returns and changes the
region only by the cleared frame pending bit. -/
theorem lg_video_tick_frame_shm (K : KVMFR) (w : World) (hmap : w.data.header = true) :
    ∃ w', lg_video_tick_frame K w = Except.ok w' ∧
      w'.shm = clear_frame_flag w.shm K.KVMFR_FRAME_FLAG_UPDATE := by
  unfold lg_video_tick_frame
  simp only [hmap, Bool.not_true, Bool.false_eq_true, if_false]
  refine ⟨_, rfl, ?_⟩
  simp only
  split
  · exact (lg_resize_texture_shm_header K _ _).1
  · rfl

/-- With the header mapped, `lg_video_tick_frame` returns, and what holds of
every state whose region is the old one with the frame pending bit cleared
holds of the state it returns. -/
theorem lg_video_tick_frame_then (K : KVMFR) (w : World) (hmap : w.data.header = true)
    (Q : World → Prop)
    (hQ : ∀ w', w'.shm = clear_frame_flag w.shm K.KVMFR_FRAME_FLAG_UPDATE → Q w') :
    ∃ w', lg_video_tick_frame K w = Except.ok w' ∧ Q w' := by
  obtain ⟨w', hok, hshm⟩ := lg_video_tick_frame_shm K w hmap
  exact ⟨w', hok, hQ w' hshm⟩

/-- The function `lg_capture_stop` leaves the region alone and the header
unmapped. -/
theorem lg_capture_stop_shm (w : World) :
    (lg_capture_stop w).shm = w.shm ∧ (lg_capture_stop w).data.header = false := by
  unfold lg_capture_stop
  simp only
  constructor
  · split <;> split <;> split <;> split <;> rfl
  · split <;> split <;> split <;> split <;> simp_all

end LinuxKvmfr

/-- Claim C12 fails as stated: a region whose magic bytes are all zero fails
validation, yet after `lg_capture_start` of the cursor-capable plugin its
header flags are 1 where they were 0: the restart bit has been written into a
region that did not validate. -/
theorem C12_restart_set_on_invalid_region :
    memcmp_ne world_bad_magic.shm.hdr.magic KVMFR_h.KVMFR_HEADER_MAGIC = true ∧
    (map_memory env_ok world_bad_magic.data).2 = true ∧
    world_bad_magic.shm.hdr.flags = 0 ∧
    ∃ w', LinuxKvmfr.lg_capture_start KVMFR_h env_ok world_bad_magic = Except.ok w' ∧
      w'.shm.hdr.flags = 1 :=
  ⟨by decide, rfl, rfl, _, rfl, rfl⟩

/-- Claim C12, as the code has it: in the cursor-capable plugin
`lg_capture_start` sets the restart-requested bit in the header flags as soon
as the region is mapped, before the magic and version tests and whatever their
outcome.  For every region that maps (the restart constant fitting the 8-bit
flag byte), the function returns and the header flags afterwards equal the old
flags OR `KVMFR_HEADER_FLAG_RESTART`; when the magic or the version test
fails, that is the only change to the region, and the header is unmapped. -/
theorem C12_restart_set_before_validation (K : KVMFR) (env : MapEnv) (w : World)
    (hmap : (map_memory env w.data).2 = true)
    (hbit : K.KVMFR_HEADER_FLAG_RESTART < 256) :
    ∃ w', LinuxKvmfr.lg_capture_start K env w = Except.ok w' ∧
      w'.shm.hdr.flags = w.shm.hdr.flags ||| K.KVMFR_HEADER_FLAG_RESTART ∧
      ((memcmp_ne w.shm.hdr.magic K.KVMFR_HEADER_MAGIC = true ∨
          w.shm.hdr.version ≠ K.KVMFR_HEADER_VERSION) →
        w'.data.header = false ∧
        w'.shm = { w.shm with hdr := { w.shm.hdr with
          flags := w.shm.hdr.flags ||| K.KVMFR_HEADER_FLAG_RESTART } }) := by
  have hmod : K.KVMFR_HEADER_FLAG_RESTART % 256 = K.KVMFR_HEADER_FLAG_RESTART :=
    Nat.mod_eq_of_lt hbit
  unfold LinuxKvmfr.lg_capture_start
  simp only [hmap, Bool.not_true, Bool.false_eq_true, if_false, hmod]
  split_ifs with h1 h2 h3
  · refine ⟨_, rfl, ?_, fun _ => ⟨(LinuxKvmfr.lg_capture_stop_shm _).2, ?_⟩⟩
    · rw [(LinuxKvmfr.lg_capture_stop_shm _).1]
    · rw [(LinuxKvmfr.lg_capture_stop_shm _).1]
  · refine ⟨_, rfl, ?_, fun _ => ⟨(LinuxKvmfr.lg_capture_stop_shm _).2, ?_⟩⟩
    · rw [(LinuxKvmfr.lg_capture_stop_shm _).1]
    · rw [(LinuxKvmfr.lg_capture_stop_shm _).1]
  · refine LinuxKvmfr.lg_video_tick_frame_then K _ rfl _ ?_
    intro w' hshm
    refine ⟨?_, ?_⟩
    · rw [hshm]
      rfl
    · intro hbad
      exfalso
      rcases hbad with hb | hb
      · exact h1 hb
      · exact h2 hb
  · refine LinuxKvmfr.lg_video_tick_frame_then K _ rfl _ ?_
    intro w' hshm
    refine ⟨?_, ?_⟩
    · rw [hshm]
      rfl
    · intro hbad
      exfalso
      rcases hbad with hb | hb
      · exact h1 hb
      · exact h2 hb

/-- Claim C12 (amended) at a concrete input: the fresh consumer, a file that
maps, a region that validates. -/
theorem C12_restart_set_before_validation_witness :
    ∃ w', LinuxKvmfr.lg_capture_start KVMFR_h env_ok
        (world_before_start (region_with frame_bgra idle_cursor 0)) = Except.ok w' ∧
      w'.shm.hdr.flags =
        (world_before_start (region_with frame_bgra idle_cursor 0)).shm.hdr.flags |||
          KVMFR_h.KVMFR_HEADER_FLAG_RESTART ∧
      ((memcmp_ne (world_before_start (region_with frame_bgra idle_cursor 0)).shm.hdr.magic
            KVMFR_h.KVMFR_HEADER_MAGIC = true ∨
          (world_before_start (region_with frame_bgra idle_cursor 0)).shm.hdr.version ≠
            KVMFR_h.KVMFR_HEADER_VERSION) →
        w'.data.header = false ∧
        w'.shm = { (world_before_start (region_with frame_bgra idle_cursor 0)).shm with
          hdr := { (world_before_start (region_with frame_bgra idle_cursor 0)).shm.hdr with
            flags :=
              (world_before_start (region_with frame_bgra idle_cursor 0)).shm.hdr.flags |||
                KVMFR_h.KVMFR_HEADER_FLAG_RESTART } }) :=
  C12_restart_set_before_validation KVMFR_h env_ok
    (world_before_start (region_with frame_bgra idle_cursor 0)) rfl (by decide)

/-- Whenever `lg_fetch_cursor` does reallocate `cursor_image`, the new buffer
holds the pixels its loops write; the overflow of claim C13 needs a call that
keeps the old buffer. -/
theorem LinuxKvmfr.capacity_after_realloc (K : KVMFR) (data : lg_data) (header : KVMFRCursor)
    (hre : (header.type = K.CURSOR_TYPE_MONOCHROME ∧
        (data.cursor_w ≠ header.width ∨ data.cursor_h ≠ header.height / 2)) ∨
      (header.type ≠ K.CURSOR_TYPE_MONOCHROME ∧
        (data.cursor_w ≠ header.width ∨ data.cursor_h ≠ header.height))) :
    LinuxKvmfr.pixels_written K header ≤ LinuxKvmfr.capacity K data header := by
  unfold LinuxKvmfr.pixels_written LinuxKvmfr.capacity LinuxKvmfr.cursor_image_realloc
  rcases hre with ⟨hty, hsz⟩ | ⟨hty, hsz⟩
  · simp only [hty, if_true, if_pos hsz, Option.getD_some, List.length_replicate]
    calc 2 * header.width * (header.height / 2)
        = header.width * (2 * (header.height / 2)) := by ring
      _ ≤ header.width * header.height :=
          Nat.mul_le_mul_left _ (Nat.mul_div_le header.height 2)
  · simp only [if_neg hty, if_pos hsz, Option.getD_some, List.length_replicate]
    split
    · exact Nat.le_refl _
    · exact Nat.zero_le _

/-- Claim C13, evaluated on the code: from the state `lg_capture_start` leaves
(`cursor_image = NULL`, `cursor_w = 1`, `cursor_h = 0`), a 2x2 masked-color
shape followed by a monochrome shape of width 2 and stacked height 4.  The
first call allocates 4 pixels and caches the size 2x2.  At the second call the
cached size equals `(width, height/2) = (2, 2)`, so the buffer is not
reallocated: its capacity is 4 pixels while the two monochrome loops write
`2*2*2 = 8`, a write past the end of the buffer. -/
theorem C13_decode_buffer_overflow :
    ∃ w0 w1,
      LinuxKvmfr.lg_capture_start KVMFR_h env_ok
        (world_before_start (region_with frame_bgra idle_cursor 165)) = Except.ok w0 ∧
      w0.data.cursor_image = none ∧ w0.data.cursor_w = 1 ∧ w0.data.cursor_h = 0 ∧
      LinuxKvmfr.lg_fetch_cursor KVMFR_h w0 masked_cursor = Except.ok w1 ∧
      LinuxKvmfr.pixels_written KVMFR_h masked_cursor = 4 ∧
      LinuxKvmfr.capacity KVMFR_h w0.data masked_cursor = 4 ∧
      w1.data.cursor_w = 2 ∧ w1.data.cursor_h = 2 ∧
      LinuxKvmfr.pixels_written KVMFR_h mono_cursor = 8 ∧
      LinuxKvmfr.capacity KVMFR_h w1.data mono_cursor = 4 ∧
      LinuxKvmfr.lg_fetch_cursor KVMFR_h w1 mono_cursor = Except.error Fault.buffer_overflow ∧
      LinuxKvmfr.fetch_sequence KVMFR_h [masked_cursor, mono_cursor] w0
        = Except.error Fault.buffer_overflow :=
  ⟨_, _, rfl, rfl, rfl, rfl, rfl, by decide, by decide, rfl, rfl, by decide, by decide, rfl, rfl⟩

/-- A cursor bitmap that starts at the end of the mapping is not decoded: with
`dataPos = 4096` in a 4096-byte region, the first byte the monochrome loops
read lies outside the mapping. -/
theorem LinuxKvmfr.lg_fetch_cursor_past_mapping :
    LinuxKvmfr.lg_fetch_cursor KVMFR_h (cursor_world mono_cursor 165)
      { mono_cursor with dataPos := 4096 } = Except.error Fault.region_overrun := by
  rfl
